import Mathlib

/-!
Verification of the seratosync repository's metadata-sync layer.

The development shallowly embeds `src/seratosync/metadata_sync.py` and the
configuration handling of `src/seratosync/backup.py`:

* `normpath` mirrors `os.path.normpath` (the POSIX variant used on the
  platform the program targets): split on the separator, drop empty and
  dot components, resolve `..` against earlier components, keep the
  special one-or-two leading-slash behaviour.
* `remap_path` mirrors `SeratoMetadataSync.remap_path`: normalize, then a
  plain string-prefix test against the source music root; on a match the
  prefix is replaced by "/Music", otherwise the normalized path passes
  through unchanged.
* The orchestration (`sync_crates`, `sync_smart_crates`, `sync_database`,
  `sync_other_files`, `sync_all`) is embedded over an explicit model of
  the destination metadata tree; the external record-store collaborator
  is abstracted as per-artifact parse results supplied in the source
  state, and filesystem exceptions are modelled by a result type that
  carries the tree at the moment of the abort.
-/

/-- Split a character list on the slash separator, as Python `str.split("/")`. -/
def splitSlash : List Char → List (List Char)
  | [] => [[]]
  | c :: rest =>
    match splitSlash rest with
    | [] => [[]]
    | h :: t => if c = '/' then [] :: h :: t else (c :: h) :: t

/-- Number of leading slashes kept by `posixpath.normpath`: two slashes are
preserved, one or three-plus collapse to one, none stays none. -/
def initialSlashes (cs : List Char) : Nat :=
  if List.isPrefixOf ['/'] cs then
    if List.isPrefixOf ['/', '/'] cs ∧ ¬ List.isPrefixOf ['/', '/', '/'] cs then 2 else 1
  else 0

/-- The component-resolution loop of `posixpath.normpath`: skip empty and
dot components, append ordinary components, and let `..` cancel a previous
ordinary component when one exists. -/
def normpathComps (rooted : Bool) (comps : List (List Char)) : List (List Char) :=
  comps.foldl
    (fun newComps comp =>
      if comp = [] ∨ comp = ['.'] then newComps
      else if comp ≠ ['.', '.'] ∨ (rooted = false ∧ newComps = []) ∨
              newComps.getLast? = some ['.', '.'] then
        newComps ++ [comp]
      else if newComps ≠ [] then newComps.dropLast
      else newComps)
    []

/-- `os.path.normpath` (POSIX flavour) on a character list. -/
def normpathList (cs : List Char) : List Char :=
  if cs = [] then ['.']
  else
    let slashes := initialSlashes cs
    let comps := normpathComps (slashes ≠ 0) (splitSlash cs)
    let path := List.replicate slashes '/' ++ List.intercalate ['/'] comps
    if path = [] then ['.'] else path

/-- `os.path.normpath` on strings. -/
def normpath (s : String) : String := ⟨normpathList s.data⟩

/-- Python `str.startswith`: a plain character-wise prefix test. -/
def startswith (s pre : String) : Bool := List.isPrefixOf pre.data s.data

/-- Python slicing `s[n:]` (by code points). -/
def dropChars (s : String) (n : Nat) : String := ⟨s.data.drop n⟩

/-- Python `len` on a string (code points). -/
def strLen (s : String) : Nat := s.data.length

/-- `SeratoMetadataSync.remap_path`: normalize the input; if it starts with
the source music root, strip that prefix and prepend "/Music"; otherwise
return the normalized path unchanged. -/
def remap_path (sourceMusic : String) (originalPath : String) : String :=
  let np := normpath originalPath
  if startswith np sourceMusic then
    "/Music" ++ dropChars np (strLen sourceMusic)
  else np

/-- C1: for every path whose normalized form starts with the source music
root, `remap_path` returns "/Music" concatenated with the path stripped of
that prefix. -/
theorem c1_remap_under_root (sm p : String)
    (h : startswith (normpath p) sm = true) :
    remap_path sm p = "/Music" ++ dropChars (normpath p) (strLen sm) := by
  simp [remap_path, h]

/-- C1 witness: the spec's own example, evaluated concretely. -/
theorem c1_remap_under_root_witness :
    remap_path "/Users/berrio/Music" "/Users/berrio/Music/DJ Music/track.mp3" =
      "/Music/DJ Music/track.mp3" := by
  have h := c1_remap_under_root "/Users/berrio/Music"
    "/Users/berrio/Music/DJ Music/track.mp3" (by decide)
  rw [h]
  decide

/-- C2: for every path whose normalized form does not start with the source
music root, `remap_path` returns the normalized path unchanged; totality is
inherent in the embedding (the function is defined for every string). -/
theorem c2_remap_passthrough (sm p : String)
    (h : startswith (normpath p) sm = false) :
    remap_path sm p = normpath p := by
  simp [remap_path, h]

/-- C2 witness: a path outside the library tree passes through, only
normalized. -/
theorem c2_remap_passthrough_witness :
    remap_path "/Users/berrio/Music" "/Other/dir/../t.mp3" = "/Other/t.mp3" := by
  have h := c2_remap_passthrough "/Users/berrio/Music" "/Other/dir/../t.mp3" (by decide)
  rw [h]
  decide

/-- C8: the prefix test is a plain string comparison, so a sibling directory
that merely begins with the same characters is rewritten instead of passed
through. -/
theorem c8_sibling_directory_rewritten :
    remap_path "/Users/berrio/Music" "/Users/berrio/MusicVideos/t.mp3" =
        "/MusicVideos/t.mp3" ∧
      remap_path "/Users/berrio/Music" "/Users/berrio/MusicVideos/t.mp3" ≠
        "/Users/berrio/MusicVideos/t.mp3" := by
  constructor
  · decide
  · decide

/-- A track record of the master database: the embedded path and the
played flag (`DatabaseV2.Fields.PLAYED`). -/
structure DbTrack where
  relpath : String
  played : Bool
deriving DecidableEq, Repr

/-- Outcome of asking the external record-store collaborator to parse one
artifact: the typed content, or the exception it raised. -/
inductive ParseResult (α : Type) where
  | ok (val : α)
  | error (msg : String)
deriving DecidableEq, Repr

/-- Content of one file written under the destination metadata tree. -/
inductive FileContent where
  | crate (tracks : List String)
  | scrate (tracks : List String)
  | db (tracks : List DbTrack)
  | raw (content : String)
deriving DecidableEq, Repr

/-- The destination metadata tree `<target>/Music/_Serato_`: which
directories exist and which files (path relative to the tree, content)
have been written. -/
structure DestState where
  seratoDir : Bool
  subcratesDir : Bool
  smartcratesDir : Bool
  files : List (String × FileContent)
deriving DecidableEq, Repr

/-- The destination tree right after `shutil.rmtree` (or when it never
existed). -/
def emptyDest : DestState :=
  { seratoDir := false, subcratesDir := false, smartcratesDir := false, files := [] }

/-- The source library as the sync run observes it: whether `_Serato_`
exists, the parse outcome of each crate, smart crate and the database, and
the preference files present with their contents. `none` for a directory
or the database means the artifact is absent. -/
structure SourceState where
  seratoExists : Bool
  subcrates : Option (List (String × ParseResult (List String)))
  smartcrates : Option (List (String × ParseResult (List String)))
  database : Option (ParseResult (List DbTrack))
  prefs : List (String × String)
deriving DecidableEq, Repr

/-- Outcome of a run: normal completion with a value, or an uncaught
exception carrying the destination tree at the moment it escaped. -/
inductive RunResult (α : Type) where
  | ok (val : α)
  | fatal (msg : String) (st : DestState)
deriving DecidableEq, Repr

/-- Whether a run ended in an uncaught exception. -/
def RunResult.isFatal : RunResult α → Bool
  | .ok _ => false
  | .fatal _ _ => true

/-- Writing a file: overwrite an existing entry of the same path, else
append. -/
def insertFile (fs : List (String × FileContent)) (k : String) (v : FileContent) :
    List (String × FileContent) :=
  if fs.any (fun p => p.1 == k) then
    fs.map (fun p => if p.1 == k then (k, v) else p)
  else fs ++ [(k, v)]

/-- Configuration assembled by `SeratoMetadataSync.__init__`. -/
structure SyncConfig where
  sourceMusic : String
  targetDrive : String
  cratePrefix : String
deriving DecidableEq, Repr

/-- `os.getenv(key, default)` over an explicit environment. -/
def getenv (env : List (String × String)) (key dflt : String) : String :=
  match env.lookup key with
  | some v => v
  | none => dflt

/-- `SeratoMetadataSync.__init__`: every configuration value is read with a
default; the constructor argument is only the default for the name-prefix
lookup. -/
def seratoMetadataSync_init (env : List (String × String))
    (cratePrefixArg : String) : SyncConfig :=
  { sourceMusic := getenv env "source_music" "/Users/berrio/Music",
    targetDrive := getenv env "target" "/Volumes/sandisk",
    cratePrefix := getenv env "crate_prefix" cratePrefixArg }

/-- `SeratoBackup.__init__` (the separate backup flow): `source` and
`target` are read with no default and an empty or missing value raises.
The missing case is modelled by the empty string, matching the falsiness
test `if not self.target` in the source. -/
def seratoBackup_init (env : List (String × String)) :
    ParseResult (String × String) :=
  let source := (env.lookup "source").getD ""
  let target := (env.lookup "target").getD ""
  if source = "" then .error "Environment variable 'source' is not set"
  else if target = "" then .error "Environment variable 'target' is not set"
  else .ok (source, target)

/-- `SeratoMetadataSync.validate_paths`: the source metadata directory and
the destination music directory must both exist; the first missing one
raises `FileNotFoundError`. -/
def validate_paths (sourceSeratoExists targetMusicExists : Bool) : Option String :=
  if !sourceSeratoExists then some "Source Serato directory does not exist"
  else if !targetMusicExists then some "Target Music directory does not exist"
  else none

/-- The body of the per-crate loop of `sync_crates`: a parse failure is
caught and the tree is left as it was; on success every track path is
remapped and the crate is written under its (optionally prefixed) name. -/
def processCrate (cfg : SyncConfig) (st : DestState)
    (file : String × ParseResult (List String)) : DestState :=
  match file.2 with
  | .error _ => st
  | .ok tracks =>
    let newName := cfg.cratePrefix ++ file.1
    { st with
      files := insertFile st.files ("Subcrates/" ++ newName)
        (.crate (tracks.map (remap_path cfg.sourceMusic))) }

/-- `SeratoMetadataSync.sync_crates`: absent source directory reports zero;
otherwise the destination directories are created, every crate is processed
with per-file exception handling, and the count of files found is
returned. -/
def sync_crates (cfg : SyncConfig)
    (subcrates : Option (List (String × ParseResult (List String))))
    (st : DestState) : Nat × DestState :=
  match subcrates with
  | none => (0, st)
  | some files =>
    let st := { st with seratoDir := true, subcratesDir := true }
    (files.length, files.foldl (processCrate cfg) st)

/-- The body of the per-file loop of `sync_smart_crates`. -/
def processSmartCrate (cfg : SyncConfig) (st : DestState)
    (file : String × ParseResult (List String)) : DestState :=
  match file.2 with
  | .error _ => st
  | .ok tracks =>
    let newName := cfg.cratePrefix ++ file.1
    { st with
      files := insertFile st.files ("SmartCrates/" ++ newName)
        (.scrate (tracks.map (remap_path cfg.sourceMusic))) }

/-- `SeratoMetadataSync.sync_smart_crates`. -/
def sync_smart_crates (cfg : SyncConfig)
    (smartcrates : Option (List (String × ParseResult (List String))))
    (st : DestState) : Nat × DestState :=
  match smartcrates with
  | none => (0, st)
  | some files =>
    let st := { st with seratoDir := true, smartcratesDir := true }
    (files.length, files.foldl (processSmartCrate cfg) st)

/-- The per-track transform of `sync_database`: remap the path and reset
the played flag unconditionally. -/
def db_modify_track (sourceMusic : String) (t : DbTrack) : DbTrack :=
  { relpath := remap_path sourceMusic t.relpath, played := false }

/-- `SeratoMetadataSync.sync_database`: absent source file is a no-op; a
parse failure is caught before anything is created or written; on success
the metadata directory is created and the transformed database is written
under the fixed name. -/
def sync_database (cfg : SyncConfig)
    (database : Option (ParseResult (List DbTrack))) (st : DestState) : DestState :=
  match database with
  | none => st
  | some (.error _) => st
  | some (.ok tracks) =>
    { st with
      seratoDir := true,
      files := insertFile st.files "database V2"
        (.db (tracks.map (db_modify_track cfg.sourceMusic))) }

/-- The fixed list of preference files `sync_other_files` copies. -/
def files_to_copy : List String := ["neworder.pref", "window.pref", "collapsed.pref"]

/-- One iteration of the `sync_other_files` loop: a file absent at the
source is skipped; `shutil.copy2` into a destination directory that does
not exist raises, and the loop has no exception handler, so the error
propagates and stops the fold. -/
def copyPref (prefs : List (String × String))
    (acc : RunResult (Nat × DestState)) (filename : String) :
    RunResult (Nat × DestState) :=
  match acc with
  | .fatal msg st => .fatal msg st
  | .ok (copied, st) =>
    match prefs.lookup filename with
    | none => .ok (copied, st)
    | some content =>
      if st.seratoDir then
        .ok (copied + 1, { st with files := insertFile st.files filename (.raw content) })
      else .fatal (filename ++ ": No such file or directory") st

/-- `SeratoMetadataSync.sync_other_files`: copy the fixed preference files
that exist at the source; the destination directory is never created here. -/
def sync_other_files (prefs : List (String × String)) (st : DestState) :
    RunResult (Nat × DestState) :=
  files_to_copy.foldl (copyPref prefs) (.ok (0, st))

/-- `SeratoMetadataSync.sync_all`: validate, clear any existing destination
metadata tree, then run the four sync steps in order. An uncaught
exception anywhere carries the tree as it stood at that point. -/
def sync_all (cfg : SyncConfig) (src : SourceState) (targetMusicExists : Bool)
    (dest : DestState) : RunResult DestState :=
  match validate_paths src.seratoExists targetMusicExists with
  | some msg => .fatal msg dest
  | none =>
    let st := emptyDest
    let (_, st) := sync_crates cfg src.subcrates st
    let (_, st) := sync_smart_crates cfg src.smartcrates st
    let st := sync_database cfg src.database st
    match sync_other_files src.prefs st with
    | .ok (_, st) => .ok st
    | .fatal msg st => .fatal msg st

/-- C3: a successful database sync writes exactly the transformed track
list under the fixed name, and every transformed track has its played flag
reset to false regardless of the source value. -/
theorem c3_database_played_reset (cfg : SyncConfig) (tracks : List DbTrack)
    (st : DestState) :
    sync_database cfg (some (.ok tracks)) st =
      { st with
        seratoDir := true,
        files := insertFile st.files "database V2"
          (.db (tracks.map (db_modify_track cfg.sourceMusic))) } ∧
    ∀ t ∈ tracks.map (db_modify_track cfg.sourceMusic), t.played = false := by
  refine ⟨rfl, ?_⟩
  intro t ht
  rcases List.mem_map.mp ht with ⟨a, _, rfl⟩
  rfl

/-- C3 witness: a concrete source track with played set becomes a
destination track with played cleared. -/
theorem c3_database_played_reset_witness :
    sync_database ⟨"/Users/berrio/Music", "/Volumes/sandisk", ""⟩
        (some (.ok [⟨"/Users/berrio/Music/a.mp3", true⟩])) emptyDest =
      { emptyDest with
        seratoDir := true,
        files := insertFile emptyDest.files "database V2"
          (.db ([(⟨"/Users/berrio/Music/a.mp3", true⟩ : DbTrack)].map
            (db_modify_track "/Users/berrio/Music"))) } ∧
    (db_modify_track "/Users/berrio/Music"
      ⟨"/Users/berrio/Music/a.mp3", true⟩).played = false := by
  have h := c3_database_played_reset ⟨"/Users/berrio/Music", "/Volumes/sandisk", ""⟩
    [⟨"/Users/berrio/Music/a.mp3", true⟩] emptyDest
  exact ⟨h.1, h.2 _ (List.mem_map_of_mem _ (List.mem_singleton.mpr rfl))⟩

/-- C4 counterexample: with no crates, no smart crates and no database at
the source but one existing preference file, the copy of that file fails
(the destination directory was never created) and the failure aborts the
run instead of letting it continue: the second existing preference file is
never copied. -/
theorem c4_pref_failure_aborts_counterexample :
    sync_all ⟨"/Users/berrio/Music", "/Volumes/sandisk", ""⟩
        ⟨true, none, none, none, [("neworder.pref", "a"), ("window.pref", "b")]⟩
        true emptyDest =
      .fatal "neworder.pref: No such file or directory" emptyDest := by
  decide

/-- C4 amended: a parse failure of one crate or smart crate leaves the
destination tree exactly as processing the remaining files alone would,
while the file still counts as attempted, and a database parse failure is
caught without affecting later steps; only a preference-file copy failure
in sync_other_files is unhandled and aborts the run. -/
theorem c4_artifact_failure_isolated (cfg : SyncConfig) (name err e : String)
    (rest : List (String × ParseResult (List String))) (st : DestState) :
    (sync_crates cfg (some ((name, .error err) :: rest)) st).2 =
        (sync_crates cfg (some rest) st).2 ∧
      (sync_crates cfg (some ((name, .error err) :: rest)) st).1 = rest.length + 1 ∧
      (sync_smart_crates cfg (some ((name, .error err) :: rest)) st).2 =
        (sync_smart_crates cfg (some rest) st).2 ∧
      sync_database cfg (some (.error e)) st = st := by
  exact ⟨rfl, by simp [sync_crates], rfl, rfl⟩

/-- C5: if a full run succeeds, rerunning it against the unchanged source
with the produced destination tree in place yields the same tree: the run
never reads the previous destination tree, it clears it. -/
theorem c5_sync_all_idempotent (cfg : SyncConfig) (src : SourceState)
    (tm : Bool) (d out : DestState)
    (h : sync_all cfg src tm d = .ok out) :
    sync_all cfg src tm out = .ok out := by
  cases hv : validate_paths src.seratoExists tm with
  | some msg => simp [sync_all, hv] at h
  | none => simpa [sync_all, hv] using h

/-- C5 witness: a concrete first run from a stale nonempty destination
tree, then the rerun from its output. -/
theorem c5_sync_all_idempotent_witness :
    sync_all ⟨"/Users/berrio/Music", "/Volumes/sandisk", ""⟩
        ⟨true, none, none, none, []⟩ true emptyDest = .ok emptyDest := by
  exact c5_sync_all_idempotent ⟨"/Users/berrio/Music", "/Volumes/sandisk", ""⟩
    ⟨true, none, none, none, []⟩ true
    ⟨true, true, true, [("junk", .raw "x")]⟩ emptyDest (by decide)

/-- C6: when validation fails (missing source metadata directory or missing
destination music directory) the run aborts with the destination tree
exactly as it was handed in: nothing is deleted or written. -/
theorem c6_validation_failure_no_mutation (cfg : SyncConfig) (src : SourceState)
    (tm : Bool) (d : DestState)
    (h : src.seratoExists = false ∨ tm = false) :
    ∃ msg, sync_all cfg src tm d = .fatal msg d := by
  rcases h with h | h
  · exact ⟨"Source Serato directory does not exist",
      by simp [sync_all, validate_paths, h]⟩
  · cases hs : src.seratoExists
    · exact ⟨"Source Serato directory does not exist",
        by simp [sync_all, validate_paths, hs]⟩
    · exact ⟨"Target Music directory does not exist",
        by simp [sync_all, validate_paths, hs, h]⟩

/-- C6 witness: a run with a missing source metadata directory leaves a
concrete nonempty destination tree untouched. -/
theorem c6_validation_failure_no_mutation_witness :
    ∃ msg, sync_all ⟨"/Users/berrio/Music", "/Volumes/sandisk", ""⟩
        ⟨false, none, none, none, []⟩ true
        ⟨true, true, true, [("junk", .raw "x")]⟩ =
      .fatal msg ⟨true, true, true, [("junk", .raw "x")]⟩ := by
  exact c6_validation_failure_no_mutation ⟨"/Users/berrio/Music", "/Volumes/sandisk", ""⟩
    ⟨false, none, none, none, []⟩ true
    ⟨true, true, true, [("junk", .raw "x")]⟩ (Or.inl rfl)

/-- C7 counterexample: with no `target` in the environment the constructor
does not fail: it falls back to the default drive root, and a concrete full
run proceeds without a fatal error. -/
theorem c7_target_default_counterexample :
    (seratoMetadataSync_init [("source_music", "/Users/berrio/Music")] "").targetDrive =
        "/Volumes/sandisk" ∧
      (sync_all (seratoMetadataSync_init [("source_music", "/Users/berrio/Music")] "")
        ⟨true, none, none, none, []⟩ true emptyDest).isFatal = false := by
  decide

/-- C7 amended: when `target` is absent from the environment the sync flow
proceeds with the default destination drive root "/Volumes/sandisk"; only
the separate backup flow treats a missing `target` as fatal. -/
theorem c7_target_default_amended (env : List (String × String)) (arg : String)
    (h : env.lookup "target" = none) :
    (seratoMetadataSync_init env arg).targetDrive = "/Volumes/sandisk" ∧
      ∀ s, env.lookup "source" = some s → s ≠ "" →
        seratoBackup_init env = .error "Environment variable 'target' is not set" := by
  constructor
  · simp [seratoMetadataSync_init, getenv, h]
  · intro s hs hne
    simp [seratoBackup_init, h, hs, hne]

/-- C7 amended witness: a concrete environment without `target`. -/
theorem c7_target_default_amended_witness :
    (seratoMetadataSync_init [("source", "/src")] "").targetDrive = "/Volumes/sandisk" ∧
      seratoBackup_init [("source", "/src")] =
        .error "Environment variable 'target' is not set" := by
  have h := c7_target_default_amended [("source", "/src")] "" (by decide)
  exact ⟨h.1, h.2 "/src" (by decide) (by decide)⟩

/-- C9: when the source has no crate directory, no smart-crate directory
and no database, no step creates the destination metadata directory, so the
first preference file that exists at the source makes its copy fail and the
failure escapes sync_all uncaught. -/
theorem c9_pref_copy_aborts_run (cfg : SyncConfig) (src : SourceState)
    (d : DestState)
    (h1 : src.seratoExists = true) (h2 : src.subcrates = none)
    (h3 : src.smartcrates = none) (h4 : src.database = none)
    (h5 : files_to_copy.any (fun n => (src.prefs.lookup n).isSome) = true) :
    (sync_all cfg src true d).isFatal = true := by
  have key : (sync_other_files src.prefs emptyDest).isFatal = true := by
    unfold sync_other_files files_to_copy
    simp only [List.foldl]
    cases hn : src.prefs.lookup "neworder.pref" with
    | some v => simp [copyPref, hn, emptyDest, RunResult.isFatal]
    | none =>
      cases hw : src.prefs.lookup "window.pref" with
      | some v => simp [copyPref, hn, hw, emptyDest, RunResult.isFatal]
      | none =>
        cases hc : src.prefs.lookup "collapsed.pref" with
        | some v => simp [copyPref, hn, hw, hc, emptyDest, RunResult.isFatal]
        | none => simp [files_to_copy, hn, hw, hc] at h5
  cases hso : sync_other_files src.prefs emptyDest with
  | ok v =>
    rw [hso] at key
    simp [RunResult.isFatal] at key
  | fatal m s =>
    simp [sync_all, validate_paths, h1, h2, h3, h4, sync_crates, sync_smart_crates,
      sync_database, hso, RunResult.isFatal]

/-- C9 witness: a source with only a window.pref file aborts the run. -/
theorem c9_pref_copy_aborts_run_witness :
    (sync_all ⟨"/Users/berrio/Music", "/Volumes/sandisk", ""⟩
      ⟨true, none, none, none, [("window.pref", "w")]⟩ true emptyDest).isFatal = true := by
  exact c9_pref_copy_aborts_run ⟨"/Users/berrio/Music", "/Volumes/sandisk", ""⟩
    ⟨true, none, none, none, [("window.pref", "w")]⟩ emptyDest rfl rfl rfl rfl (by decide)

/-- C10: the name-prefix configuration read by the constructor prefers the
environment value and falls back to the constructor argument only when the
environment variable is unset. -/
theorem c10_env_overrides_arg (env : List (String × String)) (arg : String) :
    (∀ v, env.lookup "crate_prefix" = some v →
        (seratoMetadataSync_init env arg).cratePrefix = v) ∧
      (env.lookup "crate_prefix" = none →
        (seratoMetadataSync_init env arg).cratePrefix = arg) := by
  constructor
  · intro v hv
    simp [seratoMetadataSync_init, getenv, hv]
  · intro h
    simp [seratoMetadataSync_init, getenv, h]

/-- C10 witness: a set environment variable wins over the argument; an
unset one lets the argument through. -/
theorem c10_env_overrides_arg_witness :
    (seratoMetadataSync_init [("crate_prefix", "USB_")] "arg").cratePrefix = "USB_" ∧
      (seratoMetadataSync_init [] "arg").cratePrefix = "arg" := by
  exact ⟨(c10_env_overrides_arg [("crate_prefix", "USB_")] "arg").1 "USB_" (by decide),
    (c10_env_overrides_arg [] "arg").2 (by decide)⟩
